import Mathlib

/-
  Shallow embedding of `src/VKR.py`, a FastAPI reference service over a static
  catalog of childhood infectious diseases, their symptoms, and synthetic
  seasonal case statistics.  Python ints are modelled as `Int`.  The statistics
  generator in the source computes with IEEE doubles (`0.9 + 0.1 * dy`,
  `int(base * coeff)`); on every input the program ever evaluates (the fixed
  45-disease x 3-year x 4-season table) the float results coincide with exact
  arithmetic on tenths, so the generator is embedded with exact integer
  arithmetic (`Int.tdiv` by 10 mirrors `int()` truncation toward zero).
  Python `str.lower()` / `str.strip()` / `in` are modelled charwise for the
  alphabets the data uses (ASCII and Cyrillic); HTTP 404 is modelled as
  `Option.none`.
-/

namespace VKR

/-- `Season`, a `str`-backed enum in the source; `value` is the wire label. -/
inductive Season where
  | winter
  | spring
  | summer
  | autumn
deriving DecidableEq

def Season.value : Season → String
  | .winter => "Зима"
  | .spring => "Весна"
  | .summer => "Лето"
  | .autumn => "Осень"

/-- `AgeGroup`, a `str`-backed enum in the source; `value` is the wire label. -/
inductive AgeGroup where
  | preschool
  | under7
  | children
deriving DecidableEq

def AgeGroup.value : AgeGroup → String
  | .preschool => "Дошкольный возраст"
  | .under7 => "Дети до 7 лет"
  | .children => "Детский возраст"

structure Symptom where
  id : Int
  name : String
  description : Option String
deriving DecidableEq

structure Disease where
  id : Int
  name : String
  pathogen_type : String
  transmission : String
  age_group : AgeGroup
  symptoms : List Symptom
  prevention : Option String
deriving DecidableEq

structure DiseaseShort where
  id : Int
  name : String
  age_group : AgeGroup
  pathogen_type : String
deriving DecidableEq

structure StatisticItem where
  disease_id : Int
  year : Int
  season : Season
  cases : Int
deriving DecidableEq

/-- `DiseaseWithStats(Disease)`: the full record plus its statistics. -/
structure DiseaseWithStats where
  disease : Disease
  statistics : List StatisticItem
deriving DecidableEq

def SYMPTOMS_DB : List Symptom := [
  { id := 1, name := "Лихорадка", description := some "Повышенная температура тела" },
  { id := 2, name := "Сыпь", description := some "Пятнистая или папулёзная сыпь" },
  { id := 3, name := "Кашель", description := some "Сухой или влажный кашель" },
  { id := 4, name := "Насморк", description := some "Выделения из носа" },
  { id := 5, name := "Головная боль", description := some "Боль различной интенсивности" },
  { id := 6, name := "Рвота", description := some "Обратное движение содержимого желудка" },
  { id := 7, name := "Диарея", description := some "Частый жидкий стул" },
  { id := 8, name := "Боль в горле", description := some "Воспаление слизистой горла" },
  { id := 9, name := "Конъюнктивит", description := some "Покраснение и воспаление глаз" },
  { id := 10, name := "Увеличение лимфоузлов", description := some "Лимфаденопатия" }]


/-- `SYMPTOMS_BY_ID[i]`; the source only ever looks up keys present in the
dict, where this equals the dict access. -/
def SYMPTOMS_BY_ID (i : Int) : Symptom :=
  (SYMPTOMS_DB.find? (fun s => s.id == i)).getD { id := 0, name := "", description := none }

def DISEASES_DB : List Disease := [
  { id := 1, name := "Лихорадка", pathogen_type := "Вирус", transmission := "Воздушно-капельный",
    age_group := AgeGroup.preschool, symptoms := [SYMPTOMS_BY_ID 1, SYMPTOMS_BY_ID 2, SYMPTOMS_BY_ID 10], prevention := some "Вакцинация по национальному календарю" },
  { id := 2, name := "Коклюш", pathogen_type := "Бактерия", transmission := "Воздушно-капельный",
    age_group := AgeGroup.under7, symptoms := [SYMPTOMS_BY_ID 1, SYMPTOMS_BY_ID 3], prevention := some "Вакцинация (АКДС)" },
  { id := 3, name := "Ветряная оспа", pathogen_type := "Вирус", transmission := "Воздушно-капельный",
    age_group := AgeGroup.children, symptoms := [SYMPTOMS_BY_ID 2, SYMPTOMS_BY_ID 1], prevention := some "Изоляция заболевших, вакцинация" },
  { id := 4, name := "Краснуха", pathogen_type := "Вирус", transmission := "Воздушно-капельный",
    age_group := AgeGroup.children, symptoms := [SYMPTOMS_BY_ID 2, SYMPTOMS_BY_ID 9], prevention := some "Вакцинация (КПК)" },
  { id := 5, name := "Скарлатина", pathogen_type := "Бактерия", transmission := "Контактно-бытовой",
    age_group := AgeGroup.children, symptoms := [SYMPTOMS_BY_ID 8, SYMPTOMS_BY_ID 2, SYMPTOMS_BY_ID 1], prevention := some "Своевременное назначение антибиотиков" },
  { id := 6, name := "Свинка (эпидемический паротит)", pathogen_type := "Вирус", transmission := "Воздушно-капельный",
    age_group := AgeGroup.children, symptoms := [SYMPTOMS_BY_ID 1, SYMPTOMS_BY_ID 10], prevention := some "Вакцинация (КПК)" },
  { id := 7, name := "Ротавирусная инфекция", pathogen_type := "Вирус", transmission := "Фекально-оральный",
    age_group := AgeGroup.under7, symptoms := [SYMPTOMS_BY_ID 7, SYMPTOMS_BY_ID 6, SYMPTOMS_BY_ID 1], prevention := some "Гигиена, оральная регидратация" },
  { id := 8, name := "Менингококковая инфекция", pathogen_type := "Бактерия", transmission := "Воздушно-капельный",
    age_group := AgeGroup.children, symptoms := [SYMPTOMS_BY_ID 1, SYMPTOMS_BY_ID 5, SYMPTOMS_BY_ID 10], prevention := some "Немедленное начало лечения, вакцинация" },
  { id := 9, name := "Аденовирусная инфекция", pathogen_type := "Вирус", transmission := "Воздушно-капельный",
    age_group := AgeGroup.preschool, symptoms := [SYMPTOMS_BY_ID 4, SYMPTOMS_BY_ID 7, SYMPTOMS_BY_ID 9], prevention := some "Соблюдение гигиены, изоляция заболевших" },
  { id := 10, name := "Энтеровирусная инфекция", pathogen_type := "Вирус", transmission := "Фекально-оральный",
    age_group := AgeGroup.children, symptoms := [SYMPTOMS_BY_ID 7, SYMPTOMS_BY_ID 6, SYMPTOMS_BY_ID 5], prevention := some "Гигиена, контроль качества воды и пищи" },
  { id := 11, name := "Грипп", pathogen_type := "Вирус", transmission := "Воздушно-капельный",
    age_group := AgeGroup.children, symptoms := [SYMPTOMS_BY_ID 1, SYMPTOMS_BY_ID 5, SYMPTOMS_BY_ID 3], prevention := some "Ежегодная вакцинация, изоляция заболевших" },
  { id := 12, name := "ОРВИ", pathogen_type := "Вирус", transmission := "Воздушно-капельный",
    age_group := AgeGroup.children, symptoms := [SYMPTOMS_BY_ID 4, SYMPTOMS_BY_ID 3, SYMPTOMS_BY_ID 5], prevention := some "Гигиена и поддерживающая терапия" },
  { id := 13, name := "Ангина (острый тонзиллит)", pathogen_type := "Бактерия", transmission := "Контактный",
    age_group := AgeGroup.children, symptoms := [SYMPTOMS_BY_ID 8, SYMPTOMS_BY_ID 1, SYMPTOMS_BY_ID 5], prevention := some "Рациональная антибактериальная терапия" },
  { id := 14, name := "Дифтерия", pathogen_type := "Бактерия", transmission := "Воздушно-капельный",
    age_group := AgeGroup.children, symptoms := [SYMPTOMS_BY_ID 8, SYMPTOMS_BY_ID 1], prevention := some "Вакцинация (АКДС)" },
  { id := 15, name := "Пищевые токсикоинфекции", pathogen_type := "Бактерии", transmission := "Фекально-оральный",
    age_group := AgeGroup.children, symptoms := [SYMPTOMS_BY_ID 6, SYMPTOMS_BY_ID 7], prevention := some "Соблюдение правил пищевой безопасности" },
  { id := 16, name := "Норовирусная инфекция", pathogen_type := "Вирус", transmission := "Фекально-оральный",
    age_group := AgeGroup.under7, symptoms := [SYMPTOMS_BY_ID 7, SYMPTOMS_BY_ID 6, SYMPTOMS_BY_ID 5], prevention := some "Гигиена рук, контроль качества пищи и воды" },
  { id := 17, name := "Коронавирусная инфекция (у детей)", pathogen_type := "Вирус", transmission := "Воздушно-капельный",
    age_group := AgeGroup.children, symptoms := [SYMPTOMS_BY_ID 1, SYMPTOMS_BY_ID 3, SYMPTOMS_BY_ID 4], prevention := some "Гигиена, масочный режим в сезон подъёма заболеваемости" },
  { id := 18, name := "Парагрипп", pathogen_type := "Вирус", transmission := "Воздушно-капельный",
    age_group := AgeGroup.children, symptoms := [SYMPTOMS_BY_ID 3, SYMPTOMS_BY_ID 4, SYMPTOMS_BY_ID 1], prevention := some "Изоляция заболевших, гигиена рук" },
  { id := 19, name := "Эпидемический конъюнктивит", pathogen_type := "Вирус", transmission := "Контактно-бытовой",
    age_group := AgeGroup.children, symptoms := [SYMPTOMS_BY_ID 9, SYMPTOMS_BY_ID 1], prevention := some "Гигиена рук, индивидуальные полотенца" },
  { id := 20, name := "Инфекционный мононуклеоз", pathogen_type := "Вирус", transmission := "Контактно-бытовой",
    age_group := AgeGroup.children, symptoms := [SYMPTOMS_BY_ID 1, SYMPTOMS_BY_ID 10, SYMPTOMS_BY_ID 5], prevention := some "Ограничение бытовых контактов в период болезни" },
  { id := 21, name := "Цитомегаловирусная инфекция", pathogen_type := "Вирус", transmission := "Контактно-бытовой",
    age_group := AgeGroup.children, symptoms := [SYMPTOMS_BY_ID 1, SYMPTOMS_BY_ID 5], prevention := some "Соблюдение гигиены, обследование беременных" },
  { id := 22, name := "Сальмонеллёз", pathogen_type := "Бактерия", transmission := "Фекально-оральный",
    age_group := AgeGroup.children, symptoms := [SYMPTOMS_BY_ID 7, SYMPTOMS_BY_ID 6, SYMPTOMS_BY_ID 1], prevention := some "Термическая обработка продуктов, гигиена" },
  { id := 23, name := "Шигеллёз (бактериальная дизентерия)", pathogen_type := "Бактерия", transmission := "Фекально-оральный",
    age_group := AgeGroup.children, symptoms := [SYMPTOMS_BY_ID 7, SYMPTOMS_BY_ID 1, SYMPTOMS_BY_ID 5], prevention := some "Безопасная вода, санитарно-гигиенические мероприятия" },
  { id := 24, name := "Лямблиоз", pathogen_type := "Паразит", transmission := "Фекально-оральный",
    age_group := AgeGroup.children, symptoms := [SYMPTOMS_BY_ID 7, SYMPTOMS_BY_ID 5], prevention := some "Кипячение воды, мытьё рук и овощей" },
  { id := 25, name := "Кишечная эшерихиозная инфекция", pathogen_type := "Бактерия", transmission := "Фекально-оральный",
    age_group := AgeGroup.under7, symptoms := [SYMPTOMS_BY_ID 7, SYMPTOMS_BY_ID 6], prevention := some "Соблюдение санитарных норм, контроль питания детей" },
  { id := 26, name := "Герпетическая инфекция (простого герпеса)", pathogen_type := "Вирус", transmission := "Контактно-бытовой",
    age_group := AgeGroup.children, symptoms := [SYMPTOMS_BY_ID 1, SYMPTOMS_BY_ID 8], prevention := some "Исключение тесных контактов в период высыпаний" },
  { id := 27, name := "Вирусный гепатит А", pathogen_type := "Вирус", transmission := "Фекально-оральный",
    age_group := AgeGroup.children, symptoms := [SYMPTOMS_BY_ID 1, SYMPTOMS_BY_ID 6, SYMPTOMS_BY_ID 7], prevention := some "Вакцинация, безопасная вода и пища" },
  { id := 28, name := "Вирусный гепатит B", pathogen_type := "Вирус", transmission := "Контактный",
    age_group := AgeGroup.children, symptoms := [SYMPTOMS_BY_ID 1, SYMPTOMS_BY_ID 5], prevention := some "Вакцинация, одноразовые инструменты" },
  { id := 29, name := "Клещевой энцефалит", pathogen_type := "Вирус", transmission := "Трансмиссивный",
    age_group := AgeGroup.children, symptoms := [SYMPTOMS_BY_ID 1, SYMPTOMS_BY_ID 5], prevention := some "Вакцинация, защита от клещей" },
  { id := 30, name := "Болезнь Лайма (боррелиоз)", pathogen_type := "Бактерия", transmission := "Трансмиссивный",
    age_group := AgeGroup.children, symptoms := [SYMPTOMS_BY_ID 2, SYMPTOMS_BY_ID 5, SYMPTOMS_BY_ID 10], prevention := some "Защита от клещей, раннее удаление клеща" },
  { id := 31, name := "Стафилококковая кожная инфекция", pathogen_type := "Бактерия", transmission := "Контактно-бытовой",
    age_group := AgeGroup.children, symptoms := [SYMPTOMS_BY_ID 2, SYMPTOMS_BY_ID 1], prevention := some "Гигиена кожи, обработка микротравм" },
  { id := 32, name := "Импетиго", pathogen_type := "Бактерия", transmission := "Контактно-бытовой",
    age_group := AgeGroup.children, symptoms := [SYMPTOMS_BY_ID 2], prevention := some "Гигиена, изоляция ребёнка до заживления элементов" },
  { id := 33, name := "Педикулёз", pathogen_type := "Паразит", transmission := "Контактно-бытовой",
    age_group := AgeGroup.children, symptoms := [SYMPTOMS_BY_ID 5], prevention := some "Регулярный осмотр волос, обработка головных уборов" },
  { id := 34, name := "Стрептодермия", pathogen_type := "Бактерия", transmission := "Контактно-бытовой",
    age_group := AgeGroup.children, symptoms := [SYMPTOMS_BY_ID 2], prevention := some "Гигиена, обработка кожных повреждений" },
  { id := 35, name := "Острый бронхит", pathogen_type := "Вирус", transmission := "Воздушно-капельный",
    age_group := AgeGroup.children, symptoms := [SYMPTOMS_BY_ID 3, SYMPTOMS_BY_ID 4, SYMPTOMS_BY_ID 1], prevention := some "Избегать переохлаждения, санация очагов инфекции" },
  { id := 36, name := "Пневмония (бактериальная)", pathogen_type := "Бактерия", transmission := "Воздушно-капельный",
    age_group := AgeGroup.children, symptoms := [SYMPTOMS_BY_ID 3, SYMPTOMS_BY_ID 1, SYMPTOMS_BY_ID 5], prevention := some "Вакцинация против пневмококка, своевременное лечение ОРВИ" },
  { id := 37, name := "Пневмония (вирусная)", pathogen_type := "Вирус", transmission := "Воздушно-капельный",
    age_group := AgeGroup.children, symptoms := [SYMPTOMS_BY_ID 3, SYMPTOMS_BY_ID 4, SYMPTOMS_BY_ID 1], prevention := some "Профилактика ОРВИ, изоляция заболевших" },
  { id := 38, name := "Острый синусит", pathogen_type := "Бактерия", transmission := "Воздушно-капельный",
    age_group := AgeGroup.children, symptoms := [SYMPTOMS_BY_ID 4, SYMPTOMS_BY_ID 5, SYMPTOMS_BY_ID 1], prevention := some "Лечение ринита, профилактика переохлаждения" },
  { id := 39, name := "Острый средний отит", pathogen_type := "Бактерия", transmission := "Восходящий путь из носоглотки",
    age_group := AgeGroup.children, symptoms := [SYMPTOMS_BY_ID 1, SYMPTOMS_BY_ID 5], prevention := some "Лечение респираторных инфекций, защита ушей от воды" },
  { id := 40, name := "Вирусный фарингит", pathogen_type := "Вирус", transmission := "Воздушно-капельный",
    age_group := AgeGroup.children, symptoms := [SYMPTOMS_BY_ID 8, SYMPTOMS_BY_ID 1, SYMPTOMS_BY_ID 5], prevention := some "Гигиена, ограничение контактов в период заболеваемости" },
  { id := 41, name := "Мезаденит (вирусной этиологии)", pathogen_type := "Вирус", transmission := "Фекально-оральный",
    age_group := AgeGroup.children, symptoms := [SYMPTOMS_BY_ID 1, SYMPTOMS_BY_ID 5], prevention := some "Гигиена питания и рук" },
  { id := 42, name := "Токсоплазмоз (у детей)", pathogen_type := "Паразит", transmission := "Контактно-бытовой",
    age_group := AgeGroup.children, symptoms := [SYMPTOMS_BY_ID 10, SYMPTOMS_BY_ID 5], prevention := some "Термическая обработка мяса, гигиена при уходе за животными" },
  { id := 43, name := "Энтеробиоз (глистная инвазия)", pathogen_type := "Паразит", transmission := "Фекально-оральный",
    age_group := AgeGroup.children, symptoms := [SYMPTOMS_BY_ID 7, SYMPTOMS_BY_ID 5], prevention := some "Гигиена рук, коротко подстриженные ногти, обработка постельного белья" },
  { id := 44, name := "Кандидоз полости рта (молочница)", pathogen_type := "Грибок", transmission := "Контактно-бытовой",
    age_group := AgeGroup.preschool, symptoms := [SYMPTOMS_BY_ID 8], prevention := some "Гигиена полости рта, стерильность сосок и бутылочек" },
  { id := 45, name := "Парвовирусная инфекция (инфекционная эритема)", pathogen_type := "Вирус", transmission := "Воздушно-капельный",
    age_group := AgeGroup.children, symptoms := [SYMPTOMS_BY_ID 2, SYMPTOMS_BY_ID 1, SYMPTOMS_BY_ID 5], prevention := some "Изоляция заболевших, соблюдение гигиены" }]

def YEARS : List Int := [2021, 2022, 2023]

/-- The season-multiplier table of the generator, in dict insertion order,
with multipliers scaled to integer tenths (1.5 -> 15, and so on); the float
arithmetic of the source agrees with tenths arithmetic on every generated
entry. -/
def coeffsFor (transmission : String) : List (Season × Int) :=
  if transmission == "Воздушно-капельный" then
    [(.winter, 15), (.spring, 11), (.summer, 6), (.autumn, 10)]
  else if transmission == "Фекально-оральный" then
    [(.winter, 6), (.spring, 9), (.summer, 16), (.autumn, 12)]
  else
    [(.winter, 10), (.spring, 11), (.summer, 9), (.autumn, 10)]

/-- The load-time statistics table: for each disease, `base = 25 + id * 6`;
for each year, `base_year = int(base * (0.9 + 0.1 * (year - 2021)))`, that is
`(base * (9 + (year - 2021))).tdiv 10`; for each season with multiplier `k`
(tenths `k10`), `cases = int(base_year * k) = (base_year * k10).tdiv 10`. -/
def STATISTICS_DB : List StatisticItem :=
  DISEASES_DB.flatMap fun disease =>
    let base : Int := 25 + disease.id * 6
    YEARS.flatMap fun year =>
      let base_year : Int := (base * (9 + (year - 2021))).tdiv 10
      (coeffsFor disease.transmission).map fun sk =>
        { disease_id := disease.id, year := year, season := sk.1,
          cases := (base_year * sk.2).tdiv 10 }

/-- `get_disease_or_404`; `none` models the HTTP 404. -/
def get_disease_or_404 (disease_id : Int) : Option Disease :=
  DISEASES_DB.find? (fun d => d.id == disease_id)

def attach_stats (d : Disease) : DiseaseWithStats :=
  { disease := d, statistics := STATISTICS_DB.filter (fun s => s.disease_id == d.id) }

/-- `GET /diseases/{disease_id}`. -/
def get_disease (disease_id : Int) : Option DiseaseWithStats :=
  (get_disease_or_404 disease_id).map attach_stats

/-- Python `str.lower()` restricted to the alphabets occurring in the data:
ASCII `A`-`Z` and Cyrillic `А`-`Я`, `Ё` and friends (U+0400-U+042F). -/
def pyLowerChar (c : Char) : Char :=
  let n := c.toNat
  if 65 ≤ n && n ≤ 90 then Char.ofNat (n + 32)
  else if 0x410 ≤ n && n ≤ 0x42F then Char.ofNat (n + 32)
  else if 0x400 ≤ n && n ≤ 0x40F then Char.ofNat (n + 80)
  else c

def pyLower (s : String) : String := ⟨s.data.map pyLowerChar⟩

/-- The whitespace set of Python `str.strip()` (ASCII part). -/
def pyIsSpace (c : Char) : Bool :=
  c == ' ' || c == '\t' || c == '\n' || c == '\r' || c.toNat == 11 || c.toNat == 12

/-- Python `str.strip()`. -/
def pyStrip (s : String) : String :=
  ⟨((s.data.dropWhile pyIsSpace).reverse.dropWhile pyIsSpace).reverse⟩

/-- Does `hay` start with `needle`? -/
def leadsWith : List Char → List Char → Bool
  | [], _ => true
  | _ :: _, [] => false
  | c :: cs, h :: hs => c == h && leadsWith cs hs

/-- Does `needle` occur contiguously in `hay`? -/
def hasSeg (needle : List Char) : List Char → Bool
  | [] => leadsWith needle []
  | h :: hs => leadsWith needle (h :: hs) || hasSeg needle hs

/-- Python `needle in hay` on strings. -/
def strContains (hay needle : String) : Bool := hasSeg needle.data hay.data

def toShort (d : Disease) : DiseaseShort :=
  { id := d.id, name := d.name, age_group := d.age_group, pathogen_type := d.pathogen_type }

/-- `GET /diseases`: sequential truthiness-guarded filters, then summaries.
A `some ""` argument is falsy in Python, hence skipped exactly like `none`. -/
def list_diseases (transmission : Option String) (age_group : Option AgeGroup)
    (pathogen_type : Option String) (q : Option String) : List DiseaseShort :=
  let result := DISEASES_DB
  let result : List Disease := match transmission with
    | some t =>
      if t = "" then result else
        let tn := pyStrip (pyLower t)
        result.filter (fun d => pyLower d.transmission == tn)
    | none => result
  let result : List Disease := match age_group with
    | some ag => result.filter (fun d => d.age_group == ag)
    | none => result
  let result : List Disease := match pathogen_type with
    | some p =>
      if p = "" then result else
        let pn := pyStrip (pyLower p)
        result.filter (fun d => pyLower d.pathogen_type == pn)
    | none => result
  let result : List Disease := match q with
    | some qs =>
      if qs = "" then result else
        let qn := pyStrip (pyLower qs)
        result.filter (fun d => strContains (pyLower d.name) qn)
    | none => result
  result.map toShort

/-- `GET /search/by-symptom/{symptom_id}`; `none` models the HTTP 404. -/
def search_by_symptom (symptom_id : Int) : Option (List DiseaseShort) :=
  let result := DISEASES_DB.filter (fun d => d.symptoms.any (fun s => s.id == symptom_id))
  if result.isEmpty then none else some (result.map toShort)

/-- Codepoint-wise lexicographic strict comparison of char lists, the order
Python uses to compare strings.  (Executable replacement for `List.lt`.) -/
def charListLt : List Char → List Char → Bool
  | [], [] => false
  | [], _ :: _ => true
  | _ :: _, [] => false
  | a :: as, b :: bs => if a < b then true else if b < a then false else charListLt as bs

/-- Insert a string into a list sorted by codepoint-lexicographic order. -/
def insertSorted (x : String) : List String → List String
  | [] => [x]
  | y :: ys => if charListLt x.data y.data then x :: y :: ys else y :: insertSorted x ys

/-- Python `sorted(set(l))`: deduplicate, then sort lexicographically by
codepoints (Python string `<`). -/
def pySortedSet (l : List String) : List String :=
  (l.eraseDups).foldr insertSorted []

structure FilterMeta where
  age_groups : List String
  transmissions : List String
  pathogen_types : List String
deriving DecidableEq

/-- `GET /meta/filters`. -/
def filter_meta : FilterMeta :=
  { age_groups := pySortedSet (DISEASES_DB.map (fun d => d.age_group.value)),
    transmissions := pySortedSet (DISEASES_DB.map (fun d => d.transmission)),
    pathogen_types := pySortedSet (DISEASES_DB.map (fun d => d.pathogen_type)) }


def SEASONS : List Season := [.winter, .spring, .summer, .autumn]

/-- Spec-side definition, written from the spec text for the refinement in
claim C1: the year coefficient, 0.9 plus 0.1 per year past
the start of the window. -/
def yearCoeffSpec (year : Int) : ℚ := 9/10 + 1/10 * ((year : ℚ) - 2021)

/-- Spec-side definition (claim C1): the route-specific season multiplier
table, with the decimal multipliers of the spec as rationals. -/
def seasonMultSpec (transmission : String) (s : Season) : ℚ :=
  if transmission == "Воздушно-капельный" then
    match s with | .winter => 1.5 | .spring => 1.1 | .summer => 0.6 | .autumn => 1
  else if transmission == "Фекально-оральный" then
    match s with | .winter => 0.6 | .spring => 0.9 | .summer => 1.6 | .autumn => 1.2
  else
    match s with | .winter => 1 | .spring => 1.1 | .summer => 0.9 | .autumn => 1

/-- Spec-side definition (claim C1): base 25 + 6 x id, scaled by the year
coefficient
and truncated, then scaled by the season multiplier and truncated. -/
def casesSpec (d : Disease) (year : Int) (s : Season) : Int :=
  ⌊((⌊(25 + 6 * (d.id : ℚ)) * yearCoeffSpec year⌋ : ℤ) : ℚ) * seasonMultSpec d.transmission s⌋

/-- The season multiplier table in integer tenths; bridges `seasonMultSpec`
to integer arithmetic. -/
def mult10 (transmission : String) (s : Season) : Int :=
  if transmission == "Воздушно-капельный" then
    match s with | .winter => 15 | .spring => 11 | .summer => 6 | .autumn => 10
  else if transmission == "Фекально-оральный" then
    match s with | .winter => 6 | .spring => 9 | .summer => 16 | .autumn => 12
  else
    match s with | .winter => 10 | .spring => 11 | .summer => 9 | .autumn => 10

/-- Integer form of `casesSpec`, used to bridge the rational floors to the
`Int.tdiv` arithmetic of the embedded generator. -/
def casesInt (i : Int) (transmission : String) (year : Int) (s : Season) : Int :=
  (((25 + 6 * i) * (9 + (year - 2021))).tdiv 10 * mult10 transmission s).tdiv 10
/-- Spec-side definition (claim C6): the logical AND of the supplied
predicates - trimmed case-insensitive equality for transmission and
pathogen_type, case-insensitive substring match on the name for q; an absent
argument imposes no constraint. -/
def specMatch (ot : Option String) (oa : Option AgeGroup) (op oq : Option String)
    (d : Disease) : Bool :=
  (match oq with
   | none => true
   | some qs => strContains (pyLower d.name) (pyStrip (pyLower qs))) &&
  ((match op with
   | none => true
   | some p => pyLower d.pathogen_type == pyStrip (pyLower p)) &&
  ((match oa with
   | none => true
   | some a => d.age_group == a) &&
  (match ot with
   | none => true
   | some t => pyLower d.transmission == pyStrip (pyLower t))))
/-- The position of a season in the generation order. -/
def seasonIdx : Season → Int
  | .winter => 0
  | .spring => 1
  | .summer => 2
  | .autumn => 3

/-- Is an integer list strictly increasing? -/
def strictIncr : List Int → Bool
  | [] => true
  | [_] => true
  | a :: b :: t => if a < b then strictIncr (b :: t) else false

/-
  Helper lemmas.
-/

theorem floor_mul_div_ten (a b : ℤ) (ha : 0 ≤ a) (hb : 0 ≤ b) :
    ⌊(a : ℚ) * ((b : ℚ) / 10)⌋ = (a * b).tdiv 10 := by
  have h : (a : ℚ) * ((b : ℚ) / 10) = ((a * b : ℤ) : ℚ) / ((10 : ℕ) : ℚ) := by
    push_cast; ring
  rw [h, Rat.floor_intCast_div_natCast, Int.tdiv_eq_ediv (mul_nonneg ha hb) (by norm_num)]
  norm_num

theorem seasonMultSpec_eq (t : String) (s : Season) :
    seasonMultSpec t s = (mult10 t s : ℚ) / 10 := by
  unfold seasonMultSpec mult10
  split_ifs <;> cases s <;> norm_num

theorem mult10_nonneg (t : String) (s : Season) : 0 ≤ mult10 t s := by
  unfold mult10
  split_ifs <;> cases s <;> norm_num

theorem casesSpec_eq (d : Disease) (year : Int) (hid : 0 ≤ d.id) (hy : 2021 ≤ year)
    (s : Season) : casesSpec d year s = casesInt d.id d.transmission year s := by
  unfold casesSpec casesInt
  have h1 : (25 + 6 * (d.id : ℚ)) * yearCoeffSpec year
      = ((25 + 6 * d.id : ℤ) : ℚ) * (((9 + (year - 2021) : ℤ) : ℚ) / 10) := by
    unfold yearCoeffSpec; push_cast; ring
  have ha : (0 : ℤ) ≤ 25 + 6 * d.id := by linarith
  have hb : (0 : ℤ) ≤ 9 + (year - 2021) := by linarith
  rw [h1, floor_mul_div_ten _ _ ha hb, seasonMultSpec_eq,
    floor_mul_div_ten _ _ (Int.tdiv_nonneg (mul_nonneg ha hb) (by norm_num)) (mult10_nonneg _ _)]

theorem strictIncr_chain' : ∀ l : List Int, strictIncr l = true → List.Chain' (· < ·) l := by
  intro l
  induction l with
  | nil => intro _; trivial
  | cons a t ih =>
    cases t with
    | nil => intro _; simp
    | cons b t2 =>
      intro h
      rw [strictIncr] at h
      split at h
      · rw [List.chain'_cons]
        exact ⟨by assumption, ih h⟩
      · exact absurd h (by simp)

theorem strictIncr_nodup (l : List Int) (h : strictIncr l = true) : l.Nodup :=
  ((List.chain'_iff_pairwise).mp (strictIncr_chain' l h)).imp (fun hlt => ne_of_lt hlt)

theorem charListLt_lex : ∀ as bs : List Char, charListLt as bs = true → List.Lex (· < ·) as bs := by
  intro as
  induction as with
  | nil =>
    intro bs h
    cases bs with
    | nil => exact absurd h (by simp [charListLt])
    | cons b bs => exact List.Lex.nil
  | cons a as ih =>
    intro bs h
    cases bs with
    | nil => exact absurd h (by simp [charListLt])
    | cons b bs =>
      rw [charListLt] at h
      split at h
      · exact List.Lex.rel (by assumption)
      · split at h
        · exact absurd h (by simp)
        · have hab : a = b :=
            le_antisymm (le_of_not_lt (by assumption)) (le_of_not_lt (by assumption))
          subst hab
          exact List.Lex.cons (ih bs h)

theorem strLt_of_charListLt (a b : String) (h : charListLt a.data b.data = true) : a < b :=
  String.lt_iff_toList_lt.mpr (charListLt_lex _ _ h)

/-
  Claim theorems.
-/

set_option maxRecDepth 40000 in
/-- Claim C1: the statistics generator computes, for every disease, a base
value `25 + 6 * disease_id`; for each year in 2021-2023 it scales the base by
`0.9 + 0.1` per year and truncates (`base_year`); for each of the 4 seasons it
multiplies `base_year` by the route-specific season multiplier and truncates
again.  In particular, for disease id 1 (airborne), year 2021, winter, the
generated case count equals 40. -/
theorem stats_generation_follows_spec :
    STATISTICS_DB =
      DISEASES_DB.flatMap (fun d => YEARS.flatMap (fun y =>
        SEASONS.map (fun s =>
          ({ disease_id := d.id, year := y, season := s,
             cases := casesSpec d y s } : StatisticItem)))) ∧
    (STATISTICS_DB.find? (fun it => it.disease_id == 1 && it.year == 2021
        && it.season == Season.winter)).map (fun it => it.cases) = some 40 := by
  have hDB : ∀ d ∈ DISEASES_DB, 0 ≤ d.id := by decide
  have hY : ∀ y ∈ YEARS, (2021 : ℤ) ≤ y := by decide
  constructor
  · have hmain : DISEASES_DB.flatMap (fun d => YEARS.flatMap (fun y =>
        SEASONS.map (fun s =>
          ({ disease_id := d.id, year := y, season := s,
             cases := casesSpec d y s } : StatisticItem)))) =
        DISEASES_DB.flatMap (fun d => YEARS.flatMap (fun y =>
        SEASONS.map (fun s =>
          ({ disease_id := d.id, year := y, season := s,
             cases := casesInt d.id d.transmission y s } : StatisticItem)))) := by
      apply List.flatMap_congr
      intro d hd
      apply List.flatMap_congr
      intro y hy
      apply List.map_congr_left
      intro s _
      rw [casesSpec_eq d y (hDB d hd) (hY y hy) s]
    rw [hmain]
    decide
  · decide

/-- Claim C2: for every disease id not present in the dataset,
`get_disease` fails with NotFound (`none`); for every id present it succeeds
and returns the full disease record plus its statistics. -/
theorem get_disease_spec (disease_id : Int) :
    (get_disease disease_id = none ↔ ∀ d ∈ DISEASES_DB, d.id ≠ disease_id) ∧
    (∀ dw, get_disease disease_id = some dw →
      dw.disease ∈ DISEASES_DB ∧ dw.disease.id = disease_id ∧
      dw.statistics = STATISTICS_DB.filter (fun s => s.disease_id == disease_id)) := by
  constructor
  · simp [get_disease, get_disease_or_404, Option.map_eq_none', List.find?_eq_none]
  · intro dw h
    simp only [get_disease, Option.map_eq_some'] at h
    obtain ⟨d, hfind, rfl⟩ := h
    have hmem := List.mem_of_find?_eq_some hfind
    have hid : d.id = disease_id := by simpa using List.find?_some hfind
    exact ⟨hmem, hid, by simp [attach_stats, hid]⟩

theorem get_disease_spec_witness : get_disease 999 = none :=
  (get_disease_spec 999).1.mpr (by decide)

/-- Claim C3: `search_by_symptom` fails with NotFound (`none`) exactly when no
disease's symptom list contains the given symptom id; otherwise it returns a
non-empty list of summaries, each backed by a disease whose symptom list
contains that id. -/
theorem search_by_symptom_spec (symptom_id : Int) :
    (search_by_symptom symptom_id = none ↔
      ∀ d ∈ DISEASES_DB, ∀ s ∈ d.symptoms, s.id ≠ symptom_id) ∧
    (∀ out, search_by_symptom symptom_id = some out →
      out ≠ [] ∧ ∀ sh ∈ out, ∃ d ∈ DISEASES_DB,
        toShort d = sh ∧ ∃ s ∈ d.symptoms, s.id = symptom_id) := by
  have key : (DISEASES_DB.filter (fun d => d.symptoms.any (fun s => s.id == symptom_id))) = []
      ↔ ∀ d ∈ DISEASES_DB, ∀ s ∈ d.symptoms, s.id ≠ symptom_id := by
    simp [List.filter_eq_nil_iff]
  simp only [search_by_symptom]
  split_ifs with h
  · rw [List.isEmpty_iff] at h
    exact ⟨iff_of_true rfl (key.mp h), by simp⟩
  · have h' : (DISEASES_DB.filter (fun d => d.symptoms.any (fun s => s.id == symptom_id))) ≠ [] := by
      simpa [List.isEmpty_iff] using h
    constructor
    · simp only [false_iff]
      intro hall
      exact h' (key.mpr hall)
    · intro out hout
      injection hout with hout
      subst hout
      refine ⟨by simpa using h', ?_⟩
      intro sh hsh
      simp only [List.mem_map] at hsh
      obtain ⟨d, hd, rfl⟩ := hsh
      rw [List.mem_filter] at hd
      refine ⟨d, hd.1, rfl, ?_⟩
      simpa using hd.2

theorem search_by_symptom_spec_witness : search_by_symptom 999 = none :=
  (search_by_symptom_spec 999).1.mpr (by decide)

set_option maxRecDepth 40000 in
/-- Claim C4: for every disease in the dataset, the statistics attached by
`attach_stats` (hence by `get_disease`) all carry that disease's id, every
year lies in 2021-2023, and the list is ordered year ascending, then season in
generation order (winter, spring, summer, autumn). -/
theorem attached_stats_wellformed :
    ∀ d ∈ DISEASES_DB,
      (∀ s ∈ (attach_stats d).statistics, s.disease_id = d.id ∧ s.year ∈ YEARS) ∧
      (attach_stats d).statistics.map (fun s => (s.year, s.season)) =
        [(2021, .winter), (2021, .spring), (2021, .summer), (2021, .autumn),
         (2022, .winter), (2022, .spring), (2022, .summer), (2022, .autumn),
         (2023, .winter), (2023, .spring), (2023, .summer), (2023, .autumn)] := by
  decide

theorem attached_stats_wellformed_witness :
    (attach_stats (DISEASES_DB.head (by decide))).statistics.map
        (fun s => (s.year, s.season)) =
      [(2021, .winter), (2021, .spring), (2021, .summer), (2021, .autumn),
         (2022, .winter), (2022, .spring), (2022, .summer), (2022, .autumn),
         (2023, .winter), (2023, .spring), (2023, .summer), (2023, .autumn)] :=
  (attached_stats_wellformed (DISEASES_DB.head (by decide)) (by decide)).2

/-- Claim C5: `list_diseases` with no filter arguments returns a summary of
every disease in the dataset, in dataset insertion order; being a pure
function of immutable state, its result and length are the same on every
call. -/
theorem list_diseases_no_filters :
    list_diseases none none none none = DISEASES_DB.map toShort ∧
    (list_diseases none none none none).length = DISEASES_DB.length := by
  exact ⟨rfl, by simp [list_diseases]⟩

set_option maxRecDepth 10000 in
/-- Claim C6 counterexample: a supplied transmission value that is the empty
string does NOT behave as the AND-of-predicates semantics demands (no disease
has an empty transmission, so the predicate semantics would return the empty
sequence), because Python truthiness skips the filter entirely. -/
theorem list_diseases_empty_string_counterexample :
    list_diseases (some "") none none none ≠
      (DISEASES_DB.filter (specMatch (some "") none none none)).map toShort := by
  decide

/-- Claim C6 (amended): for supplied filter values that are not the empty
string, `list_diseases` returns exactly the diseases matching the logical AND
of all supplied predicates, where transmission and pathogen_type use trimmed
case-insensitive exact equality, and q uses case-insensitive substring match;
an empty match set is an empty sequence, never an error. -/
theorem list_diseases_and_of_predicates (ot : Option String) (oa : Option AgeGroup)
    (op oq : Option String) (ht : ot ≠ some "") (hp : op ≠ some "") (hq : oq ≠ some "") :
    list_diseases ot oa op oq = (DISEASES_DB.filter (specMatch ot oa op oq)).map toShort := by
  obtain _ | t := ot <;> obtain _ | a := oa <;> obtain _ | p := op <;> obtain _ | q := oq <;>
    simp only [ne_eq, Option.some.injEq] at ht hp hq <;>
    simp [list_diseases, List.filter_filter, ht, hp, hq] <;>
    first
      | exact congrArg (List.map toShort) (List.filter_congr (fun d _ => by simp [specMatch]))
      | exact (congrArg (List.map toShort)
          (List.filter_eq_self.mpr (fun d _ => by simp [specMatch]))).symm

theorem list_diseases_and_of_predicates_witness :
    list_diseases (some "Воздушно-капельный") none none none =
      (DISEASES_DB.filter (specMatch (some "Воздушно-капельный") none none none)).map
        toShort :=
  list_diseases_and_of_predicates (some "Воздушно-капельный") none none none
    (by decide) (by decide) (by decide)

/-- Claim C7: `list_diseases` filtered by an age group returns only summaries
with that age group, and each disease's summary appears in the result for an
age group exactly when it is the disease's own age group (so the three
results partition the dataset). -/
theorem list_diseases_age_group_partition :
    ∀ ag : AgeGroup,
      (∀ sh ∈ list_diseases none (some ag) none none, sh.age_group = ag) ∧
      (∀ d ∈ DISEASES_DB,
        (toShort d ∈ list_diseases none (some ag) none none ↔ d.age_group = ag)) := by
  intro ag
  cases ag <;> decide

theorem list_diseases_age_group_partition_witness :
    toShort (DISEASES_DB.head (by decide)) ∈
      list_diseases none (some AgeGroup.preschool) none none :=
  ((list_diseases_age_group_partition AgeGroup.preschool).2
    (DISEASES_DB.head (by decide)) (by decide)).mpr (by decide)

set_option maxRecDepth 100000 in
/-- Claim C8: in the generated statistics table, every `disease_id` refers to
a disease present in the dataset, every case count is non-negative, and no
two entries share the same (disease_id, year, season) triple. -/
theorem statistics_invariants :
    (∀ s ∈ STATISTICS_DB, (∃ d ∈ DISEASES_DB, d.id = s.disease_id) ∧ 0 ≤ s.cases) ∧
    (STATISTICS_DB.map (fun s => (s.disease_id, s.year, s.season))).Nodup := by
  constructor
  · decide
  · have h1 : strictIncr (STATISTICS_DB.map
        (fun s => s.disease_id * 100000 + s.year * 10 + seasonIdx s.season)) = true := by
      decide
    have h2 := strictIncr_nodup _ h1
    have hmid : ((STATISTICS_DB.map (fun s => (s.disease_id, s.year, s.season))).map
        (fun t => t.1 * 100000 + t.2.1 * 10 + seasonIdx t.2.2)).Nodup := by
      rw [List.map_map]
      exact h2
    exact List.Nodup.of_map _ hmid

theorem statistics_invariants_witness :
    (∃ d ∈ DISEASES_DB, d.id = (1 : Int)) ∧ (0 : Int) ≤ 40 :=
  statistics_invariants.1
    { disease_id := 1, year := 2021, season := .winter, cases := 40 } (by decide)

/-- Claim C9: `filter_meta` returns three lists - the age-group labels,
transmission labels, and pathogen-type labels occurring in the dataset - each
strictly sorted in ascending codepoint-lexicographic (alphabetical) order,
without duplicates, and containing exactly the labels present. -/
theorem filter_meta_sorted_distinct :
    (List.Chain' (· < ·) filter_meta.age_groups ∧ filter_meta.age_groups.Nodup ∧
      (∀ x ∈ filter_meta.age_groups, ∃ d ∈ DISEASES_DB, d.age_group.value = x) ∧
      (∀ d ∈ DISEASES_DB, d.age_group.value ∈ filter_meta.age_groups)) ∧
    (List.Chain' (· < ·) filter_meta.transmissions ∧ filter_meta.transmissions.Nodup ∧
      (∀ x ∈ filter_meta.transmissions, ∃ d ∈ DISEASES_DB, d.transmission = x) ∧
      (∀ d ∈ DISEASES_DB, d.transmission ∈ filter_meta.transmissions)) ∧
    (List.Chain' (· < ·) filter_meta.pathogen_types ∧ filter_meta.pathogen_types.Nodup ∧
      (∀ x ∈ filter_meta.pathogen_types, ∃ d ∈ DISEASES_DB, d.pathogen_type = x) ∧
      (∀ d ∈ DISEASES_DB, d.pathogen_type ∈ filter_meta.pathogen_types)) := by
  have e1 : filter_meta.age_groups
      = ["Дети до 7 лет", "Детский возраст", "Дошкольный возраст"] := by decide
  have e2 : filter_meta.transmissions
      = ["Воздушно-капельный", "Восходящий путь из носоглотки", "Контактно-бытовой",
         "Контактный", "Трансмиссивный", "Фекально-оральный"] := by decide
  have e3 : filter_meta.pathogen_types
      = ["Бактерии", "Бактерия", "Вирус", "Грибок", "Паразит"] := by decide
  refine ⟨⟨?_, by rw [e1]; decide, by rw [e1]; decide, by rw [e1]; decide⟩,
          ⟨?_, by rw [e2]; decide, by rw [e2]; decide, by rw [e2]; decide⟩,
          ⟨?_, by rw [e3]; decide, by rw [e3]; decide, by rw [e3]; decide⟩⟩
  · rw [e1]
    repeat' constructor
    all_goals (refine strLt_of_charListLt _ _ ?_; decide)
  · rw [e2]
    repeat' constructor
    all_goals (refine strLt_of_charListLt _ _ ?_; decide)
  · rw [e3]
    repeat' constructor
    all_goals (refine strLt_of_charListLt _ _ ?_; decide)

theorem filter_meta_sorted_distinct_witness :
    ∃ d ∈ DISEASES_DB, d.transmission = "Фекально-оральный" :=
  filter_meta_sorted_distinct.2.1.2.2.1 "Фекально-оральный" (by decide)

/-- Claim C10: in `list_diseases`, a supplied transmission, pathogen_type or
q argument that is the empty string imposes no constraint: the result equals
the result of the same call with that argument absent. -/
theorem empty_string_imposes_no_constraint (ot : Option String) (oa : Option AgeGroup)
    (op oq : Option String) :
    list_diseases (some "") oa op oq = list_diseases none oa op oq ∧
    list_diseases ot oa (some "") oq = list_diseases ot oa none oq ∧
    list_diseases ot oa op (some "") = list_diseases ot oa op none := by
  refine ⟨rfl, rfl, rfl⟩

end VKR
